import Mathlib

/-!
Verification of the coordinate-transform-and-resampling core of the
RPy-alphablend repository against its specification.

Embedded components:
  - CoordinateMapper: MainWindow.patient_coord_to_scout_pixel in AECgrapher.py.
  - IntensityResampler: MainWindow.get_intensity_array and
    MainWindow.invalidate_cache in HeatMapBlenderTool.py.
  - CompositeFrameBuilder: modelled from the spec (no code in the repository).

Python and numpy floating-point values are modelled by exact rationals,
except where IEEE non-finite results of division by zero are observable;
those are modelled by the PyFloat type below.
-/

namespace AECgrapher

/-- IEEE-style result of a numpy scalar floating-point division: numpy emits a
warning on division by zero but returns inf, -inf or nan instead of raising. -/
inductive PyFloat where
  | fin (q : ℚ)
  | inf
  | ninf
  | nan
deriving DecidableEq, Repr

/-- Division of two finite numpy float64 scalars: finite quotient when the
divisor is nonzero, otherwise the IEEE non-finite results, never an error. -/
def pyDiv (a b : ℚ) : PyFloat :=
  if b = 0 then
    if a = 0 then .nan else if 0 < a then .inf else .ninf
  else .fin (a / b)

/-- A 3-vector of physical coordinates (mm), exact-rational model of the
numpy float arrays in patient_coord_to_scout_pixel. -/
structure Vec3 where
  x : ℚ
  y : ℚ
  z : ℚ
deriving DecidableEq, Repr

/-- Componentwise vector difference, modelling numpy array subtraction. -/
def Vec3.sub (a b : Vec3) : Vec3 :=
  ⟨a.x - b.x, a.y - b.y, a.z - b.z⟩

/-- Dot product of two 3-vectors, modelling np.dot. -/
def Vec3.dot (a b : Vec3) : ℚ :=
  a.x * b.x + a.y * b.y + a.z * b.z

/-- The DICOM geometry metadata of the scout dataset read by
patient_coord_to_scout_pixel: imageOrientationPatient holds the first three
and last three entries of ImageOrientationPatient (the code names them
row_cos and col_cos), imagePositionPatient is the origin, and pixelSpacing
is the two-entry PixelSpacing list (row spacing, column spacing). -/
structure ScoutDicom where
  imageOrientationPatient : Vec3 × Vec3
  imagePositionPatient : Vec3
  pixelSpacing : ℚ × ℚ
deriving DecidableEq, Repr

/-- Embedding of MainWindow.patient_coord_to_scout_pixel (AECgrapher.py,
lines 320-332): row_cos is img_ori[:3], col_cos is img_ori[3:],
v = patient_pos - origin, col_px = dot(v, col_cos) / spacing[1],
row_px = dot(v, row_cos) / spacing[0]; returns (col_px, row_px).
The body performs no validation and raises nothing. -/
def patient_coord_to_scout_pixel (patient_pos : Vec3) (scout : ScoutDicom) :
    PyFloat × PyFloat :=
  let row_cos := scout.imageOrientationPatient.1
  let col_cos := scout.imageOrientationPatient.2
  let origin := scout.imagePositionPatient
  let spacing := scout.pixelSpacing
  let v := patient_pos.sub origin
  (pyDiv (v.dot col_cos) spacing.2, pyDiv (v.dot row_cos) spacing.1)

/-- The raster of claim C1: origin (0,0,0), orientation ((1,0,0),(0,1,0)),
spacing (1,1). -/
def unitScout : ScoutDicom :=
  { imageOrientationPatient := (⟨1, 0, 0⟩, ⟨0, 1, 0⟩)
    imagePositionPatient := ⟨0, 0, 0⟩
    pixelSpacing := (1, 1) }

/-- A raster whose PixelSpacing entries are both zero, with ordinary unit
orientation and zero origin: the malformed-metadata case of claim C2. -/
def zeroSpacingScout : ScoutDicom :=
  { imageOrientationPatient := (⟨1, 0, 0⟩, ⟨0, 1, 0⟩)
    imagePositionPatient := ⟨0, 0, 0⟩
    pixelSpacing := (0, 0) }

/-- Whether a numpy float64 result is finite. -/
def PyFloat.isFinite : PyFloat → Bool
  | .fin _ => true
  | _ => false

/-- A raster whose two orientation vectors are both zero-length (degenerate),
with unit spacing and zero origin: the second malformed case of claim C2. -/
def zeroOrientationScout : ScoutDicom :=
  { imageOrientationPatient := (⟨0, 0, 0⟩, ⟨0, 0, 0⟩)
    imagePositionPatient := ⟨0, 0, 0⟩
    pixelSpacing := (1, 1) }

/-- C1: the claim is false on the code. For the raster with origin (0,0,0),
orientation ((1,0,0),(0,1,0)) and spacing (1,1), the point (5,3,0) does not
map to (col, row) = (5, 3): projecting the displacement (5,3,0) onto the
column direction cosine (0,1,0) gives col = 3, not 5. -/
theorem C1_counterexample :
    patient_coord_to_scout_pixel ⟨5, 3, 0⟩ unitScout ≠ (.fin 5, .fin 3) := by
  simp [patient_coord_to_scout_pixel, unitScout, pyDiv, Vec3.sub, Vec3.dot]

/-- C1 amended: with origin (0,0,0), orientation ((1,0,0),(0,1,0)) and
spacing (1,1), the point (5,3,0) maps to the pixel pair (col, row) = (3, 5),
where col is the projection of the displacement onto the column direction
cosine divided by column spacing and row is the projection onto the row
direction cosine divided by row spacing. -/
theorem C1_theorem :
    patient_coord_to_scout_pixel ⟨5, 3, 0⟩ unitScout = (.fin 3, .fin 5) := by
  simp [patient_coord_to_scout_pixel, unitScout, pyDiv, Vec3.sub, Vec3.dot]

/-- C2: the claim is false on the code. With zero spacing the function does
not fail with a GeometryError: it returns the numeric pair (inf, inf), and
with zero-length orientation vectors it returns the finite pair (0, 0); no
error path exists in its body. -/
theorem C2_counterexample :
    patient_coord_to_scout_pixel ⟨1, 2, 0⟩ zeroSpacingScout = (.inf, .inf) ∧
    patient_coord_to_scout_pixel ⟨1, 2, 0⟩ zeroOrientationScout =
      (.fin 0, .fin 0) := by
  constructor
  · simp [patient_coord_to_scout_pixel, zeroSpacingScout, pyDiv, Vec3.sub,
      Vec3.dot]
  · simp [patient_coord_to_scout_pixel, zeroOrientationScout, pyDiv, Vec3.sub,
      Vec3.dot]

/-- Division by zero always produces a non-finite value. -/
theorem pyDiv_isFinite_zero (a : ℚ) : (pyDiv a 0).isFinite = false := by
  unfold pyDiv
  split <;> [skip; simp at *] <;> split <;>
    first
      | rfl
      | (split <;> rfl)

/-- Division by a nonzero value is the finite exact quotient. -/
theorem pyDiv_of_ne_zero (a : ℚ) {b : ℚ} (h : b ≠ 0) :
    pyDiv a b = .fin (a / b) := by
  simp [pyDiv, h]

/-- C2 amended: worldToPixel never raises. A zero spacing entry makes the
corresponding returned component non-finite (inf, -inf or nan) instead of
signalling GeometryError, and with both spacing entries nonzero the function
returns a finite numeric pair, whatever the orientation (so a degenerate
orientation produces finite values, again with no error). -/
theorem C2_theorem (p : Vec3) (s : ScoutDicom) :
    (s.pixelSpacing.2 = 0 →
      (patient_coord_to_scout_pixel p s).1.isFinite = false) ∧
    (s.pixelSpacing.1 = 0 →
      (patient_coord_to_scout_pixel p s).2.isFinite = false) ∧
    (s.pixelSpacing.1 ≠ 0 → s.pixelSpacing.2 ≠ 0 →
      (patient_coord_to_scout_pixel p s).1.isFinite = true ∧
      (patient_coord_to_scout_pixel p s).2.isFinite = true) := by
  refine ⟨fun h2 => ?_, fun h1 => ?_, fun h1 h2 => ⟨?_, ?_⟩⟩
  · simp only [patient_coord_to_scout_pixel, h2, pyDiv_isFinite_zero]
  · simp only [patient_coord_to_scout_pixel, h1, pyDiv_isFinite_zero]
  · simp only [patient_coord_to_scout_pixel, pyDiv_of_ne_zero _ h2,
      PyFloat.isFinite]
  · simp only [patient_coord_to_scout_pixel, pyDiv_of_ne_zero _ h1,
      PyFloat.isFinite]

/-- C2 witness: the amended theorem at concrete inputs. -/
theorem C2_witness :
    (patient_coord_to_scout_pixel ⟨1, 2, 0⟩ zeroSpacingScout).1.isFinite
        = false ∧
    (patient_coord_to_scout_pixel ⟨1, 2, 0⟩ zeroSpacingScout).2.isFinite
        = false ∧
    (patient_coord_to_scout_pixel ⟨5, 3, 0⟩ unitScout).1.isFinite = true :=
  ⟨(C2_theorem ⟨1, 2, 0⟩ zeroSpacingScout).1 rfl,
   (C2_theorem ⟨1, 2, 0⟩ zeroSpacingScout).2.1 rfl,
   ((C2_theorem ⟨5, 3, 0⟩ unitScout).2.2 one_ne_zero one_ne_zero).1⟩

/-- C8: for every raster with nonzero spacing (and any orientation, in
particular a non-degenerate one), worldToPixel applied to the raster's own
origin returns exactly (0, 0). -/
theorem C8_theorem (s : ScoutDicom)
    (h1 : s.pixelSpacing.1 ≠ 0) (h2 : s.pixelSpacing.2 ≠ 0)
    (hrow : s.imageOrientationPatient.1 ≠ ⟨0, 0, 0⟩)
    (hcol : s.imageOrientationPatient.2 ≠ ⟨0, 0, 0⟩) :
    patient_coord_to_scout_pixel s.imagePositionPatient s =
      (.fin 0, .fin 0) := by
  simp [patient_coord_to_scout_pixel, pyDiv, Vec3.sub, Vec3.dot, h1, h2]

/-- C8 witness: the origin-maps-to-zero theorem at the unit raster. -/
theorem C8_witness :
    patient_coord_to_scout_pixel unitScout.imagePositionPatient unitScout =
      (.fin 0, .fin 0) :=
  C8_theorem unitScout one_ne_zero one_ne_zero
    (by simp [unitScout]) (by simp [unitScout])

end AECgrapher

namespace HeatMapBlender

/-- A dense 2D numeric array (numpy array of float64), row major. -/
abbrev Mat := List (List ℚ)

/-- Shape predicate: h rows, each of width w. -/
def Mat.hasShape (m : Mat) (h w : ℕ) : Prop :=
  m.length = h ∧ ∀ row ∈ m, row.length = w

/-- Array indexing with the out-of-range reads used by the interpolation
model mapped to 0 (they are always multiplied by a zero weight). -/
def Mat.getQ (m : Mat) (r c : ℕ) : ℚ :=
  (((m.get? r).getD []).get? c).getD 0

/-- The QTableWidget state read by get_intensity_array: rowCount and
columnCount of the widget, and the cell items, where a missing item or an
item with empty text is none and an item with parseable numeric text is
some value (cells are sanitised to numeric strings by the loaders). -/
structure TableWidget where
  rowCount : ℕ
  columnCount : ℕ
  items : List (List (Option ℚ))
deriving DecidableEq, Repr

/-- Model of self.table_widget.item(r, c): none when absent. -/
def TableWidget.item (t : TableWidget) (r c : ℕ) : Option ℚ :=
  ((t.items.get? r).bind fun row => row.get? c).join

/-- The current_data list built by get_intensity_array: for every r < rows
and c < cols, float(item.text()) if the item exists and has text, else 0.0. -/
def TableWidget.currentData (t : TableWidget) : List (List ℚ) :=
  (List.range t.rowCount).map fun r =>
    (List.range t.columnCount).map fun c => (t.item r c).getD 0

/-- Source coordinate that scipy.ndimage.zoom (order 1, default grid mode)
assigns to output index i along an axis: endpoints map to endpoints, so
i * (inN - 1) / (outN - 1), and 0 when the output axis has length <= 1. -/
def srcCoord (inN outN i : ℕ) : ℚ :=
  if outN ≤ 1 then 0 else (i : ℚ) * ((inN : ℚ) - 1) / ((outN : ℚ) - 1)

/-- Bilinear interpolation of a matrix at fractional coordinates (y, x),
the order-1 spline evaluation performed by scipy.ndimage.zoom. -/
def Mat.bilinear (m : Mat) (y x : ℚ) : ℚ :=
  let r0 := (⌊y⌋).toNat
  let c0 := (⌊x⌋).toNat
  let ty := y - (⌊y⌋ : ℚ)
  let tx := x - (⌊x⌋ : ℚ)
  (1 - ty) * ((1 - tx) * m.getQ r0 c0 + tx * m.getQ r0 (c0 + 1)) +
    ty * ((1 - tx) * m.getQ (r0 + 1) c0 + tx * m.getQ (r0 + 1) (c0 + 1))

/-- Model of scipy.ndimage.zoom(arr, (zoomY, zoomX), order=1) on an array of
shape (inH, inW): the output shape is round(in * zoom) per axis and each
output cell is the bilinear interpolation at its source coordinate.
In exact rational arithmetic the call never raises. -/
def scipyZoom (arr : Mat) (inH inW : ℕ) (zoomY zoomX : ℚ) : Mat :=
  let outH := (round ((inH : ℚ) * zoomY)).toNat
  let outW := (round ((inW : ℚ) * zoomX)).toNat
  (List.range outH).map fun i =>
    (List.range outW).map fun j =>
      arr.bilinear (srcCoord inH outH i) (srcCoord inW outW j)

/-- Model of np.repeat(arr, k, axis=0): each row repeated k times. -/
def repeatAxis0 (k : ℕ) (m : Mat) : Mat :=
  m.flatMap fun row => List.replicate k row

/-- Model of np.repeat(arr, k, axis=1): each entry repeated k times within
its row. -/
def repeatAxis1 (k : ℕ) (m : Mat) : Mat :=
  m.map fun row => row.flatMap fun v => List.replicate k v

/-- Model of arr[:h, :w]. -/
def Mat.crop (m : Mat) (h w : ℕ) : Mat :=
  (m.take h).map fun row => row.take w

/-- The fields of the MainWindow object that get_intensity_array reads and
writes: the table widget, the optional base pixmap as (width, height), and
the three cache attributes set by invalidate_cache. last_pixmap_size is
none both when invalidated and when a pixmap-less size was stored, exactly
as the Python attribute holds None in both cases. -/
structure BlenderState where
  table : TableWidget
  current_pixmap : Option (ℕ × ℕ)
  cached_intensity_array : Option Mat
  last_csv_data : Option (List (List ℚ))
  last_pixmap_size : Option (ℕ × ℕ)
deriving DecidableEq, Repr

/-- Embedding of MainWindow.invalidate_cache (HeatMapBlenderTool.py, lines
734-740): resets the three cache attributes to None (the gc.collect call
has no observable effect on this state). -/
def invalidate_cache (s : BlenderState) : BlenderState :=
  { s with
    cached_intensity_array := none
    last_csv_data := none
    last_pixmap_size := none }

/-- The resize step of get_intensity_array, reached on a cache miss: when a
pixmap is present and the array is non-empty, zoom to the pixmap size with
order-1 interpolation, and on an interpolation failure (zoomOk = false,
modelling the except branch around the external scipy call) fall back to
nearest-neighbour replication cropped to the target; otherwise return the
array unchanged. -/
def computeResized (zoomOk : Bool) (arr : Mat) (rows cols : ℕ)
    (pixmapSize : Option (ℕ × ℕ)) : Mat :=
  match pixmapSize with
  | some (w, h) =>
    if rows * cols > 0 ∧ rows > 0 ∧ cols > 0 then
      let target_height := max 1 h
      let target_width := max 1 w
      let zoom_y : ℚ := (target_height : ℚ) / (rows : ℚ)
      let zoom_x : ℚ := (target_width : ℚ) / (cols : ℚ)
      if zoomOk then
        scipyZoom arr rows cols zoom_y zoom_x
      else
        let rep_y := max 1 (⌈zoom_y⌉).toNat
        let rep_x := max 1 (⌈zoom_x⌉).toNat
        (repeatAxis1 rep_x (repeatAxis0 rep_y arr)).crop
          target_height target_width
    else arr
  | none => arr

/-- The value returned by a call of get_intensity_array, the state of the
MainWindow object after the call, and whether the call recomputed the array
(took the path below the cache check) rather than serving the cache. -/
structure GetResult where
  result : Option Mat
  state : BlenderState
  recomputed : Bool
deriving DecidableEq, Repr

/-- Embedding of MainWindow.get_intensity_array (HeatMapBlenderTool.py,
lines 742-781). zoomOk tells whether the external scipy zoom call succeeds
(its except branch is the nearest-neighbour fallback). The recomputed flag
instruments which path produced the returned array. -/
def get_intensity_array (zoomOk : Bool) (s : BlenderState) : GetResult :=
  let rows := s.table.rowCount
  let cols := s.table.columnCount
  if rows = 0 ∨ cols = 0 then
    { result := none
      state := { s with
        cached_intensity_array := none
        last_csv_data := some []
        last_pixmap_size := s.current_pixmap }
      recomputed := false }
  else
    let current_data := s.table.currentData
    let pixmap_size := s.current_pixmap
    if s.cached_intensity_array.isSome ∧
        s.last_csv_data = some current_data ∧
        s.last_pixmap_size = pixmap_size then
      { result := s.cached_intensity_array, state := s, recomputed := false }
    else
      let arr := current_data
      let resized := computeResized zoomOk arr rows cols pixmap_size
      { result := some resized
        state := { s with
          cached_intensity_array := some resized
          last_csv_data := some current_data
          last_pixmap_size := pixmap_size }
        recomputed := true }

/-- Unfolding of get_intensity_array on an empty table. -/
theorem get_intensity_array_empty (z : Bool) (s : BlenderState)
    (h : s.table.rowCount = 0 ∨ s.table.columnCount = 0) :
    get_intensity_array z s =
      { result := none
        state := { s with
          cached_intensity_array := none
          last_csv_data := some []
          last_pixmap_size := s.current_pixmap }
        recomputed := false } := by
  unfold get_intensity_array
  rw [if_pos h]

/-- Unfolding of get_intensity_array on a cache hit. -/
theorem get_intensity_array_hit (z : Bool) (s : BlenderState)
    (hr : s.table.rowCount ≠ 0) (hc : s.table.columnCount ≠ 0)
    (hhit : s.cached_intensity_array.isSome = true ∧
      s.last_csv_data = some s.table.currentData ∧
      s.last_pixmap_size = s.current_pixmap) :
    get_intensity_array z s =
      { result := s.cached_intensity_array, state := s,
        recomputed := false } := by
  unfold get_intensity_array
  rw [if_neg (by simp [hr, hc]), if_pos hhit]

/-- Unfolding of get_intensity_array on a cache miss with a nonempty table. -/
theorem get_intensity_array_miss (z : Bool) (s : BlenderState)
    (hr : s.table.rowCount ≠ 0) (hc : s.table.columnCount ≠ 0)
    (hmiss : ¬(s.cached_intensity_array.isSome = true ∧
      s.last_csv_data = some s.table.currentData ∧
      s.last_pixmap_size = s.current_pixmap)) :
    get_intensity_array z s =
      { result := some (computeResized z s.table.currentData
          s.table.rowCount s.table.columnCount s.current_pixmap)
        state := { s with
          cached_intensity_array := some (computeResized z
            s.table.currentData s.table.rowCount s.table.columnCount
            s.current_pixmap)
          last_csv_data := some s.table.currentData
          last_pixmap_size := s.current_pixmap }
        recomputed := true } := by
  unfold get_intensity_array
  rw [if_neg (by simp [hr, hc]), if_neg hmiss]

/-- The current_data list always has the table's row count as its length and
the table's column count as the width of every row. -/
theorem currentData_shape (t : TableWidget) :
    Mat.hasShape t.currentData t.rowCount t.columnCount := by
  constructor
  · simp [TableWidget.currentData]
  · intro row hrow
    simp only [TableWidget.currentData, List.mem_map] at hrow
    obtain ⟨r, _, rfl⟩ := hrow
    simp

/-- C5: for every target size (any pixmap, or none), resample applied to a
sample grid with zero rows or zero columns returns an absent result (None),
takes neither the interpolation nor the fallback path (recomputed = false),
and raises no error: the call is the defined no-data short-circuit. -/
theorem C5_theorem (z : Bool) (s : BlenderState)
    (h : s.table.rowCount = 0 ∨ s.table.columnCount = 0) :
    (get_intensity_array z s).result = none ∧
    (get_intensity_array z s).recomputed = false := by
  rw [get_intensity_array_empty z s h]
  exact ⟨rfl, rfl⟩

/-- C5 witness: the short-circuit at a concrete 0-row table. -/
theorem C5_witness :
    (get_intensity_array true
      { table := { rowCount := 0, columnCount := 3, items := [] }
        current_pixmap := some (4, 4)
        cached_intensity_array := none
        last_csv_data := none
        last_pixmap_size := none }).result = none ∧
    (get_intensity_array true
      { table := { rowCount := 0, columnCount := 3, items := [] }
        current_pixmap := some (4, 4)
        cached_intensity_array := none
        last_csv_data := none
        last_pixmap_size := none }).recomputed = false :=
  C5_theorem true _ (Or.inl rfl)

/-- The table whose every absent or empty cell is replaced by an item
holding the numeric value 0.0, with the same row and column counts. -/
def TableWidget.fillMissing (t : TableWidget) : TableWidget :=
  { t with
    items := (List.range t.rowCount).map fun r =>
      (List.range t.columnCount).map fun c => some ((t.item r c).getD 0) }

/-- Cells of the zero-filled table: within range, the stored value. -/
theorem fillMissing_item (t : TableWidget) {r c : ℕ}
    (hr : r < t.rowCount) (hc : c < t.columnCount) :
    t.fillMissing.item r c = some ((t.item r c).getD 0) := by
  simp [TableWidget.fillMissing, TableWidget.item, List.get?_eq_getElem?,
    hr, hc]

/-- Replacing absent and empty cells by 0.0 leaves current_data unchanged. -/
theorem fillMissing_currentData (t : TableWidget) :
    t.fillMissing.currentData = t.currentData := by
  unfold TableWidget.currentData
  have hrow : t.fillMissing.rowCount = t.rowCount := rfl
  have hcol : t.fillMissing.columnCount = t.columnCount := rfl
  rw [hrow, hcol]
  refine List.map_congr_left fun r hr => List.map_congr_left fun c hc => ?_
  rw [List.mem_range] at hr hc
  rw [fillMissing_item t hr hc]
  rfl

/-- Calls of get_intensity_array on two tables agreeing in row count, column
count and current_data return the same result array. -/
theorem get_intensity_array_table_congr (z : Bool) (s : BlenderState)
    (t2 : TableWidget) (hr : t2.rowCount = s.table.rowCount)
    (hc : t2.columnCount = s.table.columnCount)
    (hd : t2.currentData = s.table.currentData) :
    (get_intensity_array z { s with table := t2 }).result =
      (get_intensity_array z s).result := by
  unfold get_intensity_array
  simp only [hr, hc, hd]
  split_ifs <;> rfl

/-- C9: a missing or empty table cell is read as the value 0.0, so for every
table with positive row and column counts resample returns the same array as
for the table in which every absent or blank cell explicitly holds 0.0. -/
theorem C9_theorem (z : Bool) (s : BlenderState)
    (hr : 0 < s.table.rowCount) (hc : 0 < s.table.columnCount) :
    (get_intensity_array z { s with table := s.table.fillMissing }).result =
      (get_intensity_array z s).result :=
  get_intensity_array_table_congr z s s.table.fillMissing rfl rfl
    (fillMissing_currentData s.table)

/-- C9 witness: a 1 by 2 table with one absent cell, no pixmap. -/
theorem C9_witness :
    (get_intensity_array true
      { table := TableWidget.fillMissing
          { rowCount := 1, columnCount := 2, items := [[some 7]] }
        current_pixmap := none
        cached_intensity_array := none
        last_csv_data := none
        last_pixmap_size := none }).result =
    (get_intensity_array true
      { table := { rowCount := 1, columnCount := 2, items := [[some 7]] }
        current_pixmap := none
        cached_intensity_array := none
        last_csv_data := none
        last_pixmap_size := none }).result :=
  C9_theorem true
    { table := { rowCount := 1, columnCount := 2, items := [[some 7]] }
      current_pixmap := none
      cached_intensity_array := none
      last_csv_data := none
      last_pixmap_size := none }
    (by decide) (by decide)

/-- C10: with no base pixmap loaded, a cache-invalid call on a nonempty grid
returns the parsed grid values unchanged, with the grid's own shape
(rowCount, columnCount) and no interpolation or size change, and the result
is cached: an immediately repeated call returns the same array from the
cache without recomputation and without changing the state. -/
theorem C10_theorem (z1 z2 : Bool) (s : BlenderState)
    (hpm : s.current_pixmap = none)
    (hcache : s.cached_intensity_array = none)
    (hr : 0 < s.table.rowCount) (hc : 0 < s.table.columnCount) :
    (get_intensity_array z1 s).result = some s.table.currentData ∧
    Mat.hasShape s.table.currentData s.table.rowCount s.table.columnCount ∧
    (get_intensity_array z1 s).recomputed = true ∧
    get_intensity_array z2 (get_intensity_array z1 s).state =
      { result := some s.table.currentData
        state := (get_intensity_array z1 s).state
        recomputed := false } := by
  have hmiss : ¬(s.cached_intensity_array.isSome = true ∧
      s.last_csv_data = some s.table.currentData ∧
      s.last_pixmap_size = s.current_pixmap) := by
    simp [hcache]
  have hres : computeResized z1 s.table.currentData s.table.rowCount
      s.table.columnCount s.current_pixmap = s.table.currentData := by
    rw [hpm]
    rfl
  have h1 := get_intensity_array_miss z1 s hr.ne' hc.ne' hmiss
  rw [hres] at h1
  refine ⟨by rw [h1], currentData_shape s.table, by rw [h1], ?_⟩
  rw [h1]
  exact get_intensity_array_hit z2
    { s with
      cached_intensity_array := some s.table.currentData
      last_csv_data := some s.table.currentData
      last_pixmap_size := s.current_pixmap }
    hr.ne' hc.ne' ⟨rfl, rfl, rfl⟩

/-- A fresh (cache-invalidated) window state with a 1 by 1 grid holding 5
and no loaded base image. -/
def noPixmapState : BlenderState :=
  { table := { rowCount := 1, columnCount := 1, items := [[some 5]] }
    current_pixmap := none
    cached_intensity_array := none
    last_csv_data := none
    last_pixmap_size := none }

/-- C10 witness: the no-pixmap theorem at a concrete 1 by 1 grid. -/
theorem C10_witness :
    (get_intensity_array true noPixmapState).result = some [[(5 : ℚ)]] ∧
    Mat.hasShape [[(5 : ℚ)]] 1 1 ∧
    (get_intensity_array true noPixmapState).recomputed = true ∧
    get_intensity_array false (get_intensity_array true noPixmapState).state =
      { result := some [[(5 : ℚ)]]
        state := (get_intensity_array true noPixmapState).state
        recomputed := false } :=
  C10_theorem true false noPixmapState rfl rfl (by decide) (by decide)

/-- Shape of the zoom model: the rounded output dimensions. -/
theorem scipyZoom_shape (arr : Mat) (inH inW : ℕ) (zy zx : ℚ) :
    Mat.hasShape (scipyZoom arr inH inW zy zx)
      (round ((inH : ℚ) * zy)).toNat (round ((inW : ℚ) * zx)).toNat := by
  constructor
  · simp [scipyZoom]
  · intro row hrow
    simp only [scipyZoom, List.mem_map] at hrow
    obtain ⟨i, _, rfl⟩ := hrow
    simp

/-- Scipy's output dimension for the exact zoom factor t / n recovers t. -/
theorem round_mul_div_toNat (n t : ℕ) (hn : 0 < n) :
    (round ((n : ℚ) * ((t : ℚ) / (n : ℚ)))).toNat = t := by
  have hq : ((n : ℚ)) ≠ 0 := Nat.cast_ne_zero.mpr hn.ne'
  have hmul : (n : ℚ) * ((t : ℚ) / (n : ℚ)) = (t : ℚ) := by
    field_simp
  rw [hmul, round_natCast]
  exact Int.toNat_natCast t

/-- Length of row replication. -/
theorem repeatAxis0_length (k : ℕ) (m : Mat) :
    (repeatAxis0 k m).length = m.length * k := by
  induction m with
  | nil => simp [repeatAxis0]
  | cons r rest ih =>
    simp only [repeatAxis0, List.flatMap_cons, List.length_append,
      List.length_replicate, List.length_cons]
    rw [show (rest.flatMap fun row => List.replicate k row).length
        = rest.length * k from ih]
    ring

/-- Rows of a row replication are rows of the original. -/
theorem mem_repeatAxis0 {k : ℕ} {m : Mat} {row : List ℚ}
    (h : row ∈ repeatAxis0 k m) : row ∈ m := by
  simp only [repeatAxis0, List.mem_flatMap, List.mem_replicate] at h
  obtain ⟨a, ha, _, rfl⟩ := h
  exact ha

/-- Length of entry replication inside a row. -/
theorem flatMap_replicate_length (k : ℕ) (l : List ℚ) :
    (l.flatMap fun v => List.replicate k v).length = l.length * k := by
  induction l with
  | nil => simp
  | cons v rest ih =>
    simp only [List.flatMap_cons, List.length_append, List.length_replicate,
      List.length_cons]
    rw [ih]
    ring

/-- A positive count never exceeds the denominator times the replication
count max(1, ceil(count / denominator)) used by the fallback. -/
theorem le_mul_max_one_ceil (t d : ℕ) (hd : 0 < d) :
    t ≤ d * max 1 (⌈(t : ℚ) / (d : ℚ)⌉).toNat := by
  rcases Nat.eq_zero_or_pos t with rfl | ht
  · exact Nat.zero_le _
  have hdq : (0 : ℚ) < (d : ℚ) := by exact_mod_cast hd
  have htq : (0 : ℚ) < (t : ℚ) := by exact_mod_cast ht
  have hcpos : 0 < ⌈(t : ℚ) / (d : ℚ)⌉ := Int.ceil_pos.mpr (div_pos htq hdq)
  have hmax : max 1 (⌈(t : ℚ) / (d : ℚ)⌉).toNat =
      (⌈(t : ℚ) / (d : ℚ)⌉).toNat := max_eq_right (by omega)
  rw [hmax]
  have hle : (t : ℚ) / (d : ℚ) ≤ ((⌈(t : ℚ) / (d : ℚ)⌉ : ℤ) : ℚ) :=
    Int.le_ceil _
  rw [div_le_iff hdq] at hle
  have hcast : (((⌈(t : ℚ) / (d : ℚ)⌉).toNat : ℕ) : ℚ) =
      ((⌈(t : ℚ) / (d : ℚ)⌉ : ℤ) : ℚ) := by
    exact_mod_cast Int.toNat_of_nonneg hcpos.le
  have : (t : ℚ) ≤ (d : ℚ) * (((⌈(t : ℚ) / (d : ℚ)⌉).toNat : ℕ) : ℚ) := by
    rw [hcast]
    nlinarith
  exact_mod_cast this

/-- Shape of the crop when the array is at least as large as the target. -/
theorem crop_shape (m : Mat) (h w : ℕ) (hh : h ≤ m.length)
    (hw : ∀ row ∈ m, w ≤ row.length) :
    Mat.hasShape (m.crop h w) h w := by
  constructor
  · simp [Mat.crop, Nat.min_eq_left hh]
  · intro row hrow
    simp only [Mat.crop, List.mem_map] at hrow
    obtain ⟨r, hr, rfl⟩ := hrow
    have hr2 : r ∈ m := List.take_subset h m hr
    simp [Nat.min_eq_left (hw r hr2)]

/-- The interpolation branch of the resize step. -/
theorem computeResized_zoom (arr : Mat) (rows cols w h : ℕ)
    (hr : 0 < rows) (hc : 0 < cols) :
    computeResized true arr rows cols (some (w, h)) =
      scipyZoom arr rows cols (((max 1 h : ℕ) : ℚ) / (rows : ℚ))
        (((max 1 w : ℕ) : ℚ) / (cols : ℚ)) := by
  simp only [computeResized]
  rw [if_pos ⟨Nat.mul_pos hr hc, hr, hc⟩]
  simp

/-- The nearest-neighbour fallback branch of the resize step. -/
theorem computeResized_fallback (arr : Mat) (rows cols w h : ℕ)
    (hr : 0 < rows) (hc : 0 < cols) :
    computeResized false arr rows cols (some (w, h)) =
      Mat.crop
        (repeatAxis1 (max 1 (⌈((max 1 w : ℕ) : ℚ) / (cols : ℚ)⌉).toNat)
          (repeatAxis0 (max 1 (⌈((max 1 h : ℕ) : ℚ) / (rows : ℚ)⌉).toNat)
            arr))
        (max 1 h) (max 1 w) := by
  simp only [computeResized]
  rw [if_pos ⟨Nat.mul_pos hr hc, hr, hc⟩]
  simp

/-- Both resize branches produce the (clamped) pixmap shape. -/
theorem computeResized_shape (z : Bool) (t : TableWidget) (w h : ℕ)
    (hr : 0 < t.rowCount) (hc : 0 < t.columnCount) :
    Mat.hasShape
      (computeResized z t.currentData t.rowCount t.columnCount (some (w, h)))
      (max 1 h) (max 1 w) := by
  obtain ⟨hlen, hrow⟩ := currentData_shape t
  cases z with
  | true =>
    rw [computeResized_zoom t.currentData t.rowCount t.columnCount w h hr hc]
    have h2 := scipyZoom_shape t.currentData t.rowCount t.columnCount
      (((max 1 h : ℕ) : ℚ) / (t.rowCount : ℚ))
      (((max 1 w : ℕ) : ℚ) / (t.columnCount : ℚ))
    rwa [round_mul_div_toNat t.rowCount (max 1 h) hr,
      round_mul_div_toNat t.columnCount (max 1 w) hc] at h2
  | false =>
    rw [computeResized_fallback t.currentData t.rowCount t.columnCount w h
      hr hc]
    apply crop_shape
    · rw [repeatAxis1, List.length_map, repeatAxis0_length, hlen]
      exact le_mul_max_one_ceil (max 1 h) t.rowCount hr
    · intro row hmem
      simp only [repeatAxis1, List.mem_map] at hmem
      obtain ⟨orig, horig, rfl⟩ := hmem
      rw [flatMap_replicate_length, hrow orig (mem_repeatAxis0 horig)]
      exact le_mul_max_one_ceil (max 1 w) t.columnCount hc

/-- C4: a resampling call (cache miss) on a nonempty grid with a loaded
pixmap of positive size (w, h) returns an array of shape exactly (h, w), on
the interpolation path and on the nearest-neighbour fallback path alike. -/
theorem C4_theorem (z : Bool) (s : BlenderState) (w h : ℕ)
    (hpm : s.current_pixmap = some (w, h))
    (hcache : s.cached_intensity_array = none)
    (hr : 0 < s.table.rowCount) (hc : 0 < s.table.columnCount)
    (hw : 0 < w) (hh : 0 < h) :
    ∃ m, (get_intensity_array z s).result = some m ∧ Mat.hasShape m h w := by
  have hmiss : ¬(s.cached_intensity_array.isSome = true ∧
      s.last_csv_data = some s.table.currentData ∧
      s.last_pixmap_size = s.current_pixmap) := by
    simp [hcache]
  have h1 := get_intensity_array_miss z s hr.ne' hc.ne' hmiss
  refine ⟨computeResized z s.table.currentData s.table.rowCount
    s.table.columnCount s.current_pixmap, by rw [h1], ?_⟩
  rw [hpm]
  have h2 := computeResized_shape z s.table w h hr hc
  rwa [max_eq_right hh, max_eq_right hw] at h2

/-- C4 witness: a 2 by 2 grid resampled to a 3 by 4 pixmap, both branches. -/
theorem C4_witness :
    ∃ m, (get_intensity_array false
      { table := { rowCount := 2, columnCount := 2
                   items := [[some 0, some 10], [some 20, some 30]] }
        current_pixmap := some (3, 4)
        cached_intensity_array := none
        last_csv_data := none
        last_pixmap_size := none }).result = some m ∧
      Mat.hasShape m 4 3 :=
  C4_theorem false
    { table := { rowCount := 2, columnCount := 2
                 items := [[some 0, some 10], [some 20, some 30]] }
      current_pixmap := some (3, 4)
      cached_intensity_array := none
      last_csv_data := none
      last_pixmap_size := none } 3 4 rfl rfl (by decide) (by decide)
    (by decide) (by decide)

/-- For a positive count the clamp max(1, ceil(count / denominator)) in the
fallback is the plain ceiling. -/
theorem max_one_ceil_eq (t d : ℕ) (ht : 0 < t) (hd : 0 < d) :
    max 1 (⌈(t : ℚ) / (d : ℚ)⌉).toNat = (⌈(t : ℚ) / (d : ℚ)⌉).toNat := by
  have hdq : (0 : ℚ) < (d : ℚ) := by exact_mod_cast hd
  have htq : (0 : ℚ) < (t : ℚ) := by exact_mod_cast ht
  have hcpos : 0 < ⌈(t : ℚ) / (d : ℚ)⌉ := Int.ceil_pos.mpr (div_pos htq hdq)
  exact max_eq_right (by omega)

/-- C6: with interpolation unavailable (the except branch around the scipy
zoom call), a resampling call on a nonempty grid with a loaded pixmap of
positive size (w, h) does not fail: it returns the source cells with each
cell repeated ceil(h / rows) times along rows and ceil(w / cols) times
along columns, cropped to shape exactly (h, w). -/
theorem C6_theorem (s : BlenderState) (w h : ℕ)
    (hpm : s.current_pixmap = some (w, h))
    (hcache : s.cached_intensity_array = none)
    (hr : 0 < s.table.rowCount) (hc : 0 < s.table.columnCount)
    (hw : 0 < w) (hh : 0 < h) :
    (get_intensity_array false s).result =
      some (Mat.crop
        (repeatAxis1 (⌈(w : ℚ) / (s.table.columnCount : ℚ)⌉).toNat
          (repeatAxis0 (⌈(h : ℚ) / (s.table.rowCount : ℚ)⌉).toNat
            s.table.currentData))
        h w) ∧
    Mat.hasShape
      (Mat.crop
        (repeatAxis1 (⌈(w : ℚ) / (s.table.columnCount : ℚ)⌉).toNat
          (repeatAxis0 (⌈(h : ℚ) / (s.table.rowCount : ℚ)⌉).toNat
            s.table.currentData))
        h w)
      h w := by
  have hmiss : ¬(s.cached_intensity_array.isSome = true ∧
      s.last_csv_data = some s.table.currentData ∧
      s.last_pixmap_size = s.current_pixmap) := by
    simp [hcache]
  have h1 := get_intensity_array_miss false s hr.ne' hc.ne' hmiss
  have h2 := computeResized_fallback s.table.currentData s.table.rowCount
    s.table.columnCount w h hr hc
  rw [max_eq_right hh, max_eq_right hw, max_one_ceil_eq h s.table.rowCount
    hh hr, max_one_ceil_eq w s.table.columnCount hw hc] at h2
  have h3 := computeResized_shape false s.table w h hr hc
  rw [max_eq_right hh, max_eq_right hw, h2] at h3
  refine ⟨?_, h3⟩
  rw [h1]
  simp only [Option.some.injEq]
  rw [hpm, h2]

/-- C6 witness: the fallback on a 2 by 2 grid and a 3 by 4 pixmap. -/
theorem C6_witness :
    (get_intensity_array false
      { table := { rowCount := 2, columnCount := 2
                   items := [[some 0, some 10], [some 20, some 30]] }
        current_pixmap := some (3, 4)
        cached_intensity_array := none
        last_csv_data := none
        last_pixmap_size := none }).result =
      some (Mat.crop
        (repeatAxis1 (⌈(3 : ℚ) / ((2 : ℕ) : ℚ)⌉).toNat
          (repeatAxis0 (⌈(4 : ℚ) / ((2 : ℕ) : ℚ)⌉).toNat
            (TableWidget.currentData
              { rowCount := 2, columnCount := 2
                items := [[some 0, some 10], [some 20, some 30]] })))
        4 3) ∧
    Mat.hasShape
      (Mat.crop
        (repeatAxis1 (⌈(3 : ℚ) / ((2 : ℕ) : ℚ)⌉).toNat
          (repeatAxis0 (⌈(4 : ℚ) / ((2 : ℕ) : ℚ)⌉).toNat
            (TableWidget.currentData
              { rowCount := 2, columnCount := 2
                items := [[some 0, some 10], [some 20, some 30]] })))
        4 3)
      4 3 :=
  C6_theorem
    { table := { rowCount := 2, columnCount := 2
                 items := [[some 0, some 10], [some 20, some 30]] }
      current_pixmap := some (3, 4)
      cached_intensity_array := none
      last_csv_data := none
      last_pixmap_size := none } 3 4 rfl rfl (by decide) (by decide)
    (by decide) (by decide)

/-- The table with the single cell (r, c) edited to hold the value v and
every other cell left as it was. -/
def TableWidget.setCell (t : TableWidget) (r c : ℕ) (v : ℚ) : TableWidget :=
  { t with
    items := (List.range t.rowCount).map fun i =>
      (List.range t.columnCount).map fun j =>
        if i = r ∧ j = c then some v else t.item i j }

/-- Cells of the edited table, within range. -/
theorem setCell_item (t : TableWidget) {i j : ℕ} (r c : ℕ) (v : ℚ)
    (hi : i < t.rowCount) (hj : j < t.columnCount) :
    (t.setCell r c v).item i j =
      (if i = r ∧ j = c then some v else t.item i j) := by
  simp [TableWidget.setCell, TableWidget.item, List.get?_eq_getElem?, hi, hj]

/-- The parsed current_data entry at an in-range position. -/
theorem currentData_get (t : TableWidget) {r c : ℕ}
    (hr : r < t.rowCount) (hc : c < t.columnCount) :
    ((t.currentData.get? r).getD []).get? c = some ((t.item r c).getD 0) := by
  simp [TableWidget.currentData, List.get?_eq_getElem?, hr, hc]

/-- Editing an in-range cell to a value different from its parsed value
changes current_data. -/
theorem setCell_currentData_ne (t : TableWidget) {r c : ℕ} {v : ℚ}
    (hr : r < t.rowCount) (hc : c < t.columnCount)
    (hv : v ≠ (t.item r c).getD 0) :
    (t.setCell r c v).currentData ≠ t.currentData := by
  intro heq
  have h1 := currentData_get (t.setCell r c v) (r := r) (c := c) hr hc
  have h2 := currentData_get t hr hc
  rw [heq, h2] at h1
  rw [setCell_item t r c v hr hc, if_pos ⟨rfl, rfl⟩] at h1
  exact hv (Option.some.injEq _ _ ▸ h1.symm ▸ rfl)

/-- After any call on a nonempty table the cache attributes describe the
current grid content and pixmap size, the returned array is the cached one,
and the table and pixmap fields are untouched. -/
theorem get_intensity_array_post (z : Bool) (s : BlenderState)
    (hr : s.table.rowCount ≠ 0) (hc : s.table.columnCount ≠ 0) :
    (get_intensity_array z s).state.table = s.table ∧
    (get_intensity_array z s).state.current_pixmap = s.current_pixmap ∧
    (get_intensity_array z s).state.cached_intensity_array.isSome = true ∧
    (get_intensity_array z s).state.last_csv_data =
      some s.table.currentData ∧
    (get_intensity_array z s).state.last_pixmap_size = s.current_pixmap ∧
    (get_intensity_array z s).result =
      (get_intensity_array z s).state.cached_intensity_array := by
  by_cases hgate : s.cached_intensity_array.isSome = true ∧
      s.last_csv_data = some s.table.currentData ∧
      s.last_pixmap_size = s.current_pixmap
  · rw [get_intensity_array_hit z s hr hc hgate]
    exact ⟨rfl, rfl, hgate.1, hgate.2.1, hgate.2.2, rfl⟩
  · rw [get_intensity_array_miss z s hr hc hgate]
    exact ⟨rfl, rfl, rfl, rfl, rfl, rfl⟩

/-- C3: the caching contract of resample. After a first call on a nonempty
grid, (a) a second call whose grid content is value-identical (the cache key
is the parsed cell values, not the table object: any table with equal
current_data hits, however its cells are stored) and whose pixmap size is
unchanged returns the array cached by the first call without recomputation
and without changing the state; (b) editing any single in-range cell to a
different value forces the next call to recompute; (c) changing the target
pixmap size forces the next call to recompute. -/
theorem C3_theorem (z1 z2 z3 z4 : Bool) (s : BlenderState)
    (hr : 0 < s.table.rowCount) (hc : 0 < s.table.columnCount) :
    (∀ s2 : BlenderState,
      s2.table.currentData = s.table.currentData →
      s2.table.rowCount ≠ 0 → s2.table.columnCount ≠ 0 →
      s2.current_pixmap = s.current_pixmap →
      s2.cached_intensity_array =
        (get_intensity_array z1 s).state.cached_intensity_array →
      s2.last_csv_data = (get_intensity_array z1 s).state.last_csv_data →
      s2.last_pixmap_size =
        (get_intensity_array z1 s).state.last_pixmap_size →
      get_intensity_array z2 s2 =
        { result := (get_intensity_array z1 s).result
          state := s2
          recomputed := false }) ∧
    (∀ s3 : BlenderState, ∀ r c : ℕ, ∀ v : ℚ,
      r < s.table.rowCount → c < s.table.columnCount →
      v ≠ (s.table.item r c).getD 0 →
      s3.table = s.table.setCell r c v →
      s3.last_csv_data = (get_intensity_array z1 s).state.last_csv_data →
      (get_intensity_array z3 s3).recomputed = true) ∧
    (∀ s4 : BlenderState, ∀ pm2 : Option (ℕ × ℕ),
      pm2 ≠ s.current_pixmap →
      s4.table = s.table → s4.current_pixmap = pm2 →
      s4.last_pixmap_size =
        (get_intensity_array z1 s).state.last_pixmap_size →
      (get_intensity_array z4 s4).recomputed = true) := by
  obtain ⟨hTab, hPix, hSome, hCsv, hLast, hRes⟩ :=
    get_intensity_array_post z1 s hr.ne' hc.ne'
  refine ⟨fun s2 hd hr2 hc2 hpix2 hcach2 hcsv2 hlast2 => ?_,
    fun s3 r c v hrr hcc hv htab3 hcsv3 => ?_,
    fun s4 pm2 hpm2 htab4 hpix4 hlast4 => ?_⟩
  · have hhit := get_intensity_array_hit z2 s2 hr2 hc2
      ⟨by rw [hcach2]; exact hSome,
        by rw [hcsv2, hCsv, hd],
        by rw [hlast2, hLast, hpix2]⟩
    rw [hhit, hRes, hcach2]
  · have hmiss : ¬(s3.cached_intensity_array.isSome = true ∧
        s3.last_csv_data = some s3.table.currentData ∧
        s3.last_pixmap_size = s3.current_pixmap) := by
      rintro ⟨-, h2, -⟩
      rw [hcsv3, hCsv, htab3] at h2
      exact setCell_currentData_ne s.table hrr hcc hv
        (Option.some.inj h2).symm
    rw [get_intensity_array_miss z3 s3
      (by rw [htab3]; exact hr.ne') (by rw [htab3]; exact hc.ne') hmiss]
  · have hmiss : ¬(s4.cached_intensity_array.isSome = true ∧
        s4.last_csv_data = some s4.table.currentData ∧
        s4.last_pixmap_size = s4.current_pixmap) := by
      rintro ⟨-, -, h3⟩
      rw [hlast4, hLast, hpix4] at h3
      exact hpm2 h3.symm
    rw [get_intensity_array_miss z4 s4
      (by rw [htab4]; exact hr.ne') (by rw [htab4]; exact hc.ne') hmiss]

/-- A fresh state with a 1 by 2 grid (one stored cell, one missing cell)
and a 2 by 2 pixmap. -/
def cacheDemoState : BlenderState :=
  { table := { rowCount := 1, columnCount := 2, items := [[some 1]] }
    current_pixmap := some (2, 2)
    cached_intensity_array := none
    last_csv_data := none
    last_pixmap_size := none }

/-- The state after the first call with the table replaced by one that
stores the very same values differently (the missing cell now explicitly
holds 0.0): value-identical content in a different object. -/
def cacheDemoHit : BlenderState :=
  { table := { rowCount := 1, columnCount := 2, items := [[some 1, some 0]] }
    current_pixmap := some (2, 2)
    cached_intensity_array :=
      (get_intensity_array true cacheDemoState).state.cached_intensity_array
    last_csv_data :=
      (get_intensity_array true cacheDemoState).state.last_csv_data
    last_pixmap_size :=
      (get_intensity_array true cacheDemoState).state.last_pixmap_size }

/-- The state after the first call with one cell edited to 99. -/
def cacheDemoEdited : BlenderState :=
  { table := TableWidget.setCell
      { rowCount := 1, columnCount := 2, items := [[some 1]] } 0 0 99
    current_pixmap := some (2, 2)
    cached_intensity_array :=
      (get_intensity_array true cacheDemoState).state.cached_intensity_array
    last_csv_data :=
      (get_intensity_array true cacheDemoState).state.last_csv_data
    last_pixmap_size :=
      (get_intensity_array true cacheDemoState).state.last_pixmap_size }

/-- The state after the first call with the pixmap size changed to 3 by 3. -/
def cacheDemoResized : BlenderState :=
  { table := { rowCount := 1, columnCount := 2, items := [[some 1]] }
    current_pixmap := some (3, 3)
    cached_intensity_array :=
      (get_intensity_array true cacheDemoState).state.cached_intensity_array
    last_csv_data :=
      (get_intensity_array true cacheDemoState).state.last_csv_data
    last_pixmap_size :=
      (get_intensity_array true cacheDemoState).state.last_pixmap_size }

/-- C3 witness: the caching contract at concrete states: a value-identical
differently-stored table hits the cache without recomputation, while a
single-cell edit and a pixmap-size change each force recomputation. -/
theorem C3_witness :
    get_intensity_array false cacheDemoHit =
      { result := (get_intensity_array true cacheDemoState).result
        state := cacheDemoHit
        recomputed := false } ∧
    (get_intensity_array true cacheDemoEdited).recomputed = true ∧
    (get_intensity_array true cacheDemoResized).recomputed = true :=
  ⟨(C3_theorem true false true true cacheDemoState
      (by decide) (by decide)).1 cacheDemoHit rfl
      (by decide) (by decide) rfl rfl rfl rfl,
   (C3_theorem true false true true cacheDemoState
      (by decide) (by decide)).2.1 cacheDemoEdited 0 0 99
      (by decide) (by decide) (by decide) rfl rfl,
   (C3_theorem true false true true cacheDemoState
      (by decide) (by decide)).2.2 cacheDemoResized (some (3, 3))
      (by decide) rfl rfl rfl⟩

end HeatMapBlender

namespace Composite

open HeatMapBlender

/-- The error raised for a crop rectangle or field size inconsistent with
the target raster (spec section 7). -/
inductive BoundsError where
  | boundsError
deriving DecidableEq, Repr

/-- A full-size composite cell: none is the NaN no-data marker, some q a
written intensity value. -/
abbrev CompositeCell := Option ℚ

/-- Modelled from the spec: the repository has no CompositeFrameBuilder
code, so this follows spec section 4.3 word for word. With a crop rectangle
(x, y, w, h), after validating 0 <= x, 0 <= y, x + w <= fullWidth and
y + h <= fullHeight (and before any write), allocate a fullSize-shaped
array of NaN, write the resampled field into the sub-rectangle rows
y to y + h and columns x to x + w, and leave every other cell NaN; an
out-of-range rectangle yields a BoundsError. Without a crop rectangle the
resampled field is the composite, provided its size already matches. -/
def composite (resampled : Mat) (fullWidth fullHeight : ℕ)
    (cropRect : Option (ℤ × ℤ × ℤ × ℤ)) :
    Except BoundsError (List (List CompositeCell)) :=
  match cropRect with
  | none =>
    if resampled.length = fullHeight ∧
        resampled.all fun row => row.length = fullWidth then
      .ok (resampled.map fun row => row.map some)
    else .error .boundsError
  | some (x, y, w, h) =>
    if 0 ≤ x ∧ 0 ≤ y ∧ x + w ≤ (fullWidth : ℤ) ∧
        y + h ≤ (fullHeight : ℤ) then
      .ok ((List.range fullHeight).map fun (r : ℕ) =>
        (List.range fullWidth).map fun (c : ℕ) =>
          if y ≤ (r : ℤ) ∧ (r : ℤ) < y + h ∧ x ≤ (c : ℤ) ∧
              (c : ℤ) < x + w then
            some (Mat.getQ resampled ((r : ℤ) - y).toNat ((c : ℤ) - x).toNat)
          else none)
    else .error .boundsError

/-- The cell of a composite at row r, column c, when present. -/
def cellAt (m : List (List CompositeCell)) (r c : ℕ) :
    Option CompositeCell :=
  ((m.get? r).getD []).get? c

/-- Reading a cell of an array built over index ranges. -/
theorem cellAt_rangeMap (f : ℕ → ℕ → CompositeCell) (fullWidth fullHeight : ℕ)
    {r c : ℕ} (hr : r < fullHeight) (hc : c < fullWidth) :
    cellAt ((List.range fullHeight).map fun i =>
      (List.range fullWidth).map fun j => f i j) r c = some (f r c) := by
  simp [cellAt, List.get?_eq_getElem?, hr, hc]

/-- C7: for an in-bounds crop rectangle the composite is a fullSize-shaped
array whose cells outside the sub-rectangle are all NaN (the no-data
marker, never a zero intensity) and whose cells inside are exactly the
entries of the resampled field; a rectangle violating the bounds invariant
yields a BoundsError and no array. -/
theorem C7_theorem (resampled : Mat) (fullWidth fullHeight : ℕ)
    (x y w h : ℤ) :
    (0 ≤ x → 0 ≤ y → x + w ≤ (fullWidth : ℤ) → y + h ≤ (fullHeight : ℤ) →
      ∃ M, composite resampled fullWidth fullHeight (some (x, y, w, h)) =
          .ok M ∧
        M.length = fullHeight ∧ (∀ row ∈ M, row.length = fullWidth) ∧
        (∀ r c : ℕ, r < fullHeight → c < fullWidth →
          (¬(y ≤ (r : ℤ) ∧ (r : ℤ) < y + h ∧ x ≤ (c : ℤ) ∧
              (c : ℤ) < x + w) →
            cellAt M r c = some none) ∧
          (y ≤ (r : ℤ) → (r : ℤ) < y + h → x ≤ (c : ℤ) → (c : ℤ) < x + w →
            cellAt M r c = some (some (Mat.getQ resampled
              ((r : ℤ) - y).toNat ((c : ℤ) - x).toNat))))) ∧
    (¬(0 ≤ x ∧ 0 ≤ y ∧ x + w ≤ (fullWidth : ℤ) ∧
        y + h ≤ (fullHeight : ℤ)) →
      composite resampled fullWidth fullHeight (some (x, y, w, h)) =
        .error .boundsError) := by
  constructor
  · intro hx hy hxw hyh
    refine ⟨(List.range fullHeight).map fun (r : ℕ) =>
      (List.range fullWidth).map fun (c : ℕ) =>
        if y ≤ (r : ℤ) ∧ (r : ℤ) < y + h ∧ x ≤ (c : ℤ) ∧ (c : ℤ) < x + w
        then some (Mat.getQ resampled ((r : ℤ) - y).toNat
          ((c : ℤ) - x).toNat)
        else none, ?_, by simp, ?_, ?_⟩
    · simp only [composite]
      rw [if_pos ⟨hx, hy, hxw, hyh⟩]
    · intro row hrow
      simp only [List.mem_map] at hrow
      obtain ⟨i, _, rfl⟩ := hrow
      simp
    · intro r c hr hc
      constructor
      · intro hout
        rw [cellAt_rangeMap _ fullWidth fullHeight hr hc, if_neg hout]
      · intro h1 h2 h3 h4
        rw [cellAt_rangeMap _ fullWidth fullHeight hr hc,
          if_pos ⟨h1, h2, h3, h4⟩]
  · intro hbad
    simp only [composite]
    rw [if_neg hbad]

/-- C7 witness: a 2 by 3 field composited into a 5 by 6 frame at rectangle
(x, y, w, h) = (1, 2, 3, 2), and the out-of-range rectangle (4, 4, 3, 2)
rejected with a BoundsError. -/
theorem C7_witness :
    (∃ M, composite [[1, 2, 3], [4, 5, 6]] 6 5 (some (1, 2, 3, 2)) =
        .ok M ∧
      M.length = 5 ∧ (∀ row ∈ M, row.length = 6) ∧
      (∀ r c : ℕ, r < 5 → c < 6 →
        (¬((2 : ℤ) ≤ (r : ℤ) ∧ (r : ℤ) < 2 + 2 ∧ (1 : ℤ) ≤ (c : ℤ) ∧
            (c : ℤ) < 1 + 3) →
          cellAt M r c = some none) ∧
        ((2 : ℤ) ≤ (r : ℤ) → (r : ℤ) < 2 + 2 → (1 : ℤ) ≤ (c : ℤ) →
            (c : ℤ) < 1 + 3 →
          cellAt M r c = some (some (Mat.getQ [[1, 2, 3], [4, 5, 6]]
            ((r : ℤ) - 2).toNat ((c : ℤ) - 1).toNat))))) ∧
    composite [[1, 2, 3], [4, 5, 6]] 6 5 (some (4, 4, 3, 2)) =
      .error .boundsError :=
  ⟨(C7_theorem [[1, 2, 3], [4, 5, 6]] 6 5 1 2 3 2).1
      (by decide) (by decide) (by decide) (by decide),
   (C7_theorem [[1, 2, 3], [4, 5, 6]] 6 5 4 4 3 2).2 (by decide)⟩

end Composite
